import Mathlib

/-!
# Bobi car-companion core: shallow embedding and verification

This file embeds the core of the Bobi repository in Lean 4 and proves or
refutes the specification claims about it.  The embedded components are:

* the rate-limiter primitives `Cooldown` and `SlidingWindowCounter`
  (src/local/src/core/utils/rateLimiter.ts, identical copy in the server
  sources);
* the server session state machine (`StateMachine` class);
* the local MobX store's state-machine and device-state actions
  (src/local/src/core/store.ts);
* the tool implementations `captureFrame` / `requestFrameCapture` and
  `setDeviceState` (tool registries of both variants);
* the local orchestrator's `wake` and `handleGimbalTouched`
  (src/local/src/core/orchestrator/index.ts);
* the pending frame-request map of the local store
  (`requestFrame` / `fulfillFrameRequest` and the 10 s timeout).

JavaScript `Date.now()` timestamps are modelled as `Nat` milliseconds; every
operation that reads the clock takes an explicit `now` parameter.
`Math.random()` draws are injected as explicit parameters.  JS numbers used
for volume/brightness/head-pose are modelled as `Int` (the source only ever
adds, subtracts, and clamps them).
-/

namespace Bobi

/-! ## Configuration constants (src/local/src/core/config.ts, ENV) -/

def AWAKE_WINDOW_MS : Nat := 20000
def MAX_DIALOG_DURATION_MS : Nat := 180000
def CAPTURE_COOLDOWN_MS : Nat := 800
def CAPTURE_MAX_PER_10S : Nat := 3
def VOLUME_BRIGHTNESS_COOLDOWN_MS : Nat := 300
def VOLUME_BRIGHTNESS_MAX_DELTA : Int := 15

/-- JS `Math.max(lo, Math.min(hi, x))`. -/
def clampI (lo hi x : Int) : Int := max lo (min hi x)

/-- JS `x || dflt` on a nullable number: `null` and `0` are falsy. -/
def jsOrElse (x : Option Nat) (dflt : Nat) : Nat :=
  match x with
  | some t => if t = 0 then dflt else t
  | none => dflt

/-! ## Rate limiter primitives (utils/rateLimiter.ts)

`Cooldown` keeps `lastAction` (initially 0); `canAct()` is
`Date.now() - lastAction >= cooldownMs`.  Timestamps are monotone and start
well above 0, so `Nat` truncated subtraction agrees with JS arithmetic on
every reachable input. -/

structure Cooldown where
  cooldownMs : Nat
  lastAction : Nat
  deriving DecidableEq, Repr

namespace Cooldown

def init (ms : Nat) : Cooldown := ⟨ms, 0⟩

def canAct (c : Cooldown) (now : Nat) : Bool :=
  c.cooldownMs ≤ now - c.lastAction

/-- `act()`: if eligible, records `now` and returns true; otherwise returns
false with no state change. -/
def act (c : Cooldown) (now : Nat) : Bool × Cooldown :=
  if c.canAct now then (true, { c with lastAction := now }) else (false, c)

def remaining (c : Cooldown) (now : Nat) : Nat :=
  c.cooldownMs - (now - c.lastAction)

end Cooldown

/-- `SlidingWindowCounter`: list of action timestamps; `cleanup()` keeps the
timestamps `t` with `now - t < windowMs`. -/
structure SlidingWindowCounter where
  maxCount : Nat
  windowMs : Nat
  timestamps : List Nat
  deriving DecidableEq, Repr

namespace SlidingWindowCounter

def init (maxCount windowMs : Nat) : SlidingWindowCounter :=
  ⟨maxCount, windowMs, []⟩

/-- The pruned state produced by the private `cleanup()` method
(`this.timestamps = this.timestamps.filter(t => now - t < this.windowMs)`). -/
def cleanup (c : SlidingWindowCounter) (now : Nat) : SlidingWindowCounter :=
  { c with timestamps := c.timestamps.filter (fun t => now - t < c.windowMs) }

/-- `canAct()` mutates (prunes) and then compares the length with
`maxCount`; we return the mutated state alongside the answer. -/
def canAct (c : SlidingWindowCounter) (now : Nat) : Bool × SlidingWindowCounter :=
  let c' := c.cleanup now
  (c'.timestamps.length < c'.maxCount, c')

/-- `act()` re-checks `canAct()` and pushes `now` only if still eligible. -/
def act (c : SlidingWindowCounter) (now : Nat) : Bool × SlidingWindowCounter :=
  let r := c.canAct now
  if r.1 then (true, { r.2 with timestamps := r.2.timestamps ++ [now] })
  else (false, r.2)

def count (c : SlidingWindowCounter) (now : Nat) : Nat × SlidingWindowCounter :=
  let c' := c.cleanup now
  (c'.timestamps.length, c')

end SlidingWindowCounter

/-! ## Session states (shared `BobiState` union type) -/

inductive BobiState
  | DVR_IDLE
  | AWAKE_LISTEN
  | ACTIVE_DIALOG
  | VISION_CHECK
  deriving DecidableEq, Repr

/-! ## Server session state machine (state/StateMachine.ts)

The `StateMachine` class keeps a `StateContext`, a `DeviceState` and two
`setTimeout` handles.  Timers are modelled as optional absolute deadlines
(`setTimeout(f, d)` at time `now` schedules a firing at `now + d`); the
one-shot firing is a separate event that consumes the deadline.  Event
emissions that leave the machine (`requestLLMConnect`, `dialogTimeout`, ...)
are recorded in boolean fields where a claim needs them. -/

inductive Expression
  | neutral | happy | curious | sleepy | surprised | concerned
  deriving DecidableEq, Repr

structure SrvHeadPose where
  yaw : Int
  pitch : Int
  deriving DecidableEq, Repr

structure SrvDeviceState where
  volume : Int
  brightness : Int
  expression : Expression
  headPose : SrvHeadPose
  deriving DecidableEq, Repr

structure StateContext where
  state : BobiState
  awakeStartTime : Option Nat
  dialogStartTime : Option Nat
  lastInteractionTime : Option Nat
  sessionId : Option String
  deriving DecidableEq, Repr

structure SM where
  context : StateContext
  deviceState : SrvDeviceState
  /-- absolute deadline of the pending `awakeTimer`, if any -/
  awakeTimerDeadline : Option Nat
  /-- absolute deadline of the pending `dialogTimer`, if any -/
  dialogTimerDeadline : Option Nat
  /-- whether DVR recording is active (`dvrRecorder handling in enterDVRIdle`) -/
  dvrRecording : Bool
  /-- set when `handleDialogTimeout` emits the `dialogTimeout` (wrap-up) signal -/
  dialogTimeoutEmitted : Bool
  deriving DecidableEq, Repr

namespace SM

/-- Field values of the class initializers; the constructor additionally runs
`enterDVRIdle()`, which on these values only starts DVR recording (the
transition is a self-loop and every nulled field is already null). -/
def init : SM :=
  { context := { state := .DVR_IDLE, awakeStartTime := none, dialogStartTime := none,
                 lastInteractionTime := none, sessionId := none }
    deviceState := { volume := 50, brightness := 70, expression := .sleepy,
                     headPose := { yaw := 0, pitch := 0 } }
    awakeTimerDeadline := none
    dialogTimerDeadline := none
    dvrRecording := true
    dialogTimeoutEmitted := false }

/-- `transition(newState)`: no-op when the state is unchanged, otherwise
updates `context.state` (and emits a `stateChange` event). -/
def transition (m : SM) (newState : BobiState) : SM :=
  if m.context.state = newState then m
  else { m with context := { m.context with state := newState } }

def clearTimers (m : SM) : SM :=
  { m with awakeTimerDeadline := none, dialogTimerDeadline := none }

/-- Partial update used by `updateDeviceState` (`Object.assign`). -/
structure DeviceUpdate where
  volume : Option Int := none
  brightness : Option Int := none
  expression : Option Expression := none
  headPose : Option SrvHeadPose := none
  deriving DecidableEq, Repr

def updateDeviceState (m : SM) (u : DeviceUpdate) : SM :=
  { m with deviceState :=
    { volume := u.volume.getD m.deviceState.volume
      brightness := u.brightness.getD m.deviceState.brightness
      expression := u.expression.getD m.deviceState.expression
      headPose := u.headPose.getD m.deviceState.headPose } }

def getDialogDurationMs (m : SM) (now : Nat) : Nat :=
  match m.context.dialogStartTime with
  | none => 0
  | some t => now - t

def getAwakeRemainingMs (m : SM) (now : Nat) : Nat :=
  if m.context.state = .DVR_IDLE ∨ m.context.awakeStartTime = none then 0
  else match m.context.awakeStartTime with
       | none => 0
       | some t => AWAKE_WINDOW_MS - (now - t)

/-- `enterDVRIdle()`: clear timers, null awake/dialog start and session id,
disconnect the LLM, ensure DVR recording, set sleepy expression, transition.
(`lastInteractionTime` is not touched.) -/
def enterDVRIdle (m : SM) (_now : Nat) : SM :=
  let m := m.clearTimers
  let m := { m with context := { m.context with
    awakeStartTime := none, dialogStartTime := none, sessionId := none } }
  let m := { m with dvrRecording := true }
  let m := m.updateDeviceState { expression := some .sleepy }
  m.transition .DVR_IDLE

def startAwakeTimer (m : SM) (now : Nat) : SM :=
  { m with awakeTimerDeadline := some (now + AWAKE_WINDOW_MS) }

def refreshAwakeTimer (m : SM) (now : Nat) : SM :=
  let m := { m with context := { m.context with awakeStartTime := some now } }
  m.startAwakeTimer now

/-- `wake()`: from a non-idle state, only refresh the awake timer; from
`DVR_IDLE`, record wake/interaction times, set a happy expression, request
the LLM connection, start the awake timer and transition to `AWAKE_LISTEN`. -/
def wake (m : SM) (now : Nat) : SM :=
  if m.context.state ≠ .DVR_IDLE then
    m.refreshAwakeTimer now
  else
    let m := { m with context := { m.context with
      awakeStartTime := some now, lastInteractionTime := some now } }
    let m := m.updateDeviceState { expression := some .happy }
    let m := m.startAwakeTimer now
    m.transition .AWAKE_LISTEN

/-- `handleDialogTimeout()`: emits the `dialogTimeout` wrap-up signal; the
orchestrator performs the graceful shutdown afterwards. -/
def handleDialogTimeout (m : SM) : SM :=
  { m with dialogTimeoutEmitted := true }

/-- `startDialogTimer()`: schedules the dialog timer for the remaining part
of the hard cap; if nothing remains, the timeout handler runs at once. -/
def startDialogTimer (m : SM) (now : Nat) : SM :=
  let remaining := MAX_DIALOG_DURATION_MS - m.getDialogDurationMs now
  if remaining = 0 then m.handleDialogTimeout
  else { m with dialogTimerDeadline := some (now + remaining) }

/-- `startDialog()`: rejected in `DVR_IDLE`; otherwise clears both timers,
keeps an existing `dialogStartTime` (`dialogStartTime || Date.now()`),
records the interaction, restarts the dialog timer and transitions. -/
def startDialog (m : SM) (now : Nat) : SM :=
  if m.context.state = .DVR_IDLE then m
  else
    let m := m.clearTimers
    let m := { m with context := { m.context with
      dialogStartTime := some (jsOrElse m.context.dialogStartTime now),
      lastInteractionTime := some now } }
    let m := m.startDialogTimer now
    m.transition .ACTIVE_DIALOG

/-- `enterVisionCheck()`: rejected in `DVR_IDLE`; otherwise records the
interaction, sets a curious expression and transitions to `VISION_CHECK`. -/
def enterVisionCheck (m : SM) (now : Nat) : SM :=
  if m.context.state = .DVR_IDLE then m
  else
    let m := { m with context := { m.context with lastInteractionTime := some now } }
    let m := m.updateDeviceState { expression := some .curious }
    m.transition .VISION_CHECK

/-- `exitVisionCheck()`: only from `VISION_CHECK`, back to `ACTIVE_DIALOG`. -/
def exitVisionCheck (m : SM) : SM :=
  if m.context.state ≠ .VISION_CHECK then m
  else m.transition .ACTIVE_DIALOG

/-- `refreshDialogTimer()`: the dialog hard cap is not reset; only the awake
grace window (awakeStartTime) moves while in `ACTIVE_DIALOG`. -/
def refreshDialogTimer (m : SM) (now : Nat) : SM :=
  if m.context.state = .ACTIVE_DIALOG then
    { m with context := { m.context with awakeStartTime := some now } }
  else m

/-- `recordInteraction()`. -/
def recordInteraction (m : SM) (now : Nat) : SM :=
  let m := { m with context := { m.context with lastInteractionTime := some now } }
  if m.context.state = .AWAKE_LISTEN then m.refreshAwakeTimer now
  else if m.context.state = .ACTIVE_DIALOG then m.refreshDialogTimer now
  else m

def setSessionId (m : SM) (sid : String) : SM :=
  { m with context := { m.context with sessionId := some sid } }

/-- External events driving the machine; timer firings consume the pending
deadline and run the scheduled handler. -/
inductive Event
  | enterDVRIdle
  | wake
  | startDialog
  | enterVisionCheck
  | exitVisionCheck
  | recordInteraction
  | setSessionId (sid : String)
  | awakeTimerFire
  | dialogTimerFire
  deriving DecidableEq, Repr

def step (m : SM) (now : Nat) : Event → SM
  | .enterDVRIdle => m.enterDVRIdle now
  | .wake => m.wake now
  | .startDialog => m.startDialog now
  | .enterVisionCheck => m.enterVisionCheck now
  | .exitVisionCheck => m.exitVisionCheck
  | .recordInteraction => m.recordInteraction now
  | .setSessionId sid => m.setSessionId sid
  | .awakeTimerFire =>
      if m.awakeTimerDeadline = some now then
        ({ m with awakeTimerDeadline := none }).enterDVRIdle now
      else m
  | .dialogTimerFire =>
      if m.dialogTimerDeadline = some now then
        ({ m with dialogTimerDeadline := none }).handleDialogTimeout
      else m

/-- Run a timed event trace. -/
def run (m : SM) : List (Nat × Event) → SM
  | [] => m
  | (now, e) :: rest => (m.step now e).run rest

end SM

/-! ## Local store (src/local/src/core/store.ts)

The MobX `BobiStore` holds the session state, the timing context and the
device state (which, in the local variant, also has a `mood` and a string
`expression` such as `"happy_1"`, plus a `roll` component of the head pose).
`Math.random()` draws in `setMood` are injected as explicit `Nat` draws,
reduced modulo the variant count exactly where the source computes
`Math.floor(Math.random() * count)`. -/

inductive Mood
  | happy | sad | curious | surprised | sleepy | neutral
  deriving DecidableEq, Repr

def Mood.name : Mood → String
  | .happy => "happy"
  | .sad => "sad"
  | .curious => "curious"
  | .surprised => "surprised"
  | .sleepy => "sleepy"
  | .neutral => "neutral"

structure HeadPose where
  yaw : Int
  pitch : Int
  roll : Int
  deriving DecidableEq, Repr

structure LocalDeviceState where
  volume : Int
  brightness : Int
  mood : Mood
  expression : String
  headPose : HeadPose
  deriving DecidableEq, Repr

/-- `MOOD_VARIANT_COUNT`: every mood has 3 expression variants. -/
def MOOD_VARIANT_COUNT : Nat := 3

/-- `MOOD_HEAD_POSES` table of the store. -/
def MOOD_HEAD_POSES : Mood → List HeadPose
  | .happy => [⟨0, -5, 0⟩, ⟨8, -3, 5⟩, ⟨-8, -3, -5⟩]
  | .sad => [⟨0, 10, 0⟩, ⟨-5, 8, -3⟩, ⟨5, 12, 3⟩]
  | .curious => [⟨15, -5, 8⟩, ⟨-15, -5, -8⟩, ⟨0, -10, 12⟩]
  | .surprised => [⟨0, -8, 0⟩, ⟨-5, -10, -3⟩, ⟨5, -10, 3⟩]
  | .sleepy => [⟨0, 8, 0⟩, ⟨-3, 5, -10⟩, ⟨3, 5, 10⟩]
  | .neutral => [⟨0, 0, 0⟩, ⟨3, -2, 0⟩, ⟨-3, -2, 0⟩]

structure Store where
  state : BobiState
  awakeStartTime : Option Nat
  dialogStartTime : Option Nat
  lastInteractionTime : Option Nat
  sessionId : Option String
  dvrRecording : Bool
  deviceState : LocalDeviceState
  deriving DecidableEq, Repr

namespace Store

/-- Field initializers of `BobiStore`. -/
def init : Store :=
  { state := .DVR_IDLE, awakeStartTime := none, dialogStartTime := none,
    lastInteractionTime := none, sessionId := none, dvrRecording := true,
    deviceState := { volume := 50, brightness := 70, mood := .sleepy,
                     expression := "sleepy_0", headPose := ⟨0, 0, 0⟩ } }

/-- `setMood(mood)` picks a pseudo-random expression variant and head pose;
`rv`/`rp` are the injected random draws. -/
def setMood (s : Store) (mood : Mood) (rv rp : Nat) : Store :=
  let variant := rv % MOOD_VARIANT_COUNT
  let expression := mood.name ++ "_" ++ toString variant
  let headPoses := MOOD_HEAD_POSES mood
  let headPose := headPoses.getD (rp % headPoses.length) ⟨0, 0, 0⟩
  { s with deviceState := { s.deviceState with
      mood := mood, expression := expression, headPose := headPose } }

/-- `setState(newState)`: the three conditional context updates of the
store, each with a dependent `setMood`. -/
def setState (s : Store) (newState : BobiState) (now : Nat) (rv rp : Nat) : Store :=
  let oldState := s.state
  let s := { s with state := newState }
  if newState = .AWAKE_LISTEN ∧ oldState = .DVR_IDLE then
    ({ s with awakeStartTime := some now }).setMood .curious rv rp
  else if newState = .DVR_IDLE then
    ({ s with awakeStartTime := none, dialogStartTime := none }).setMood .sleepy rv rp
  else if newState = .ACTIVE_DIALOG ∧ oldState ≠ .ACTIVE_DIALOG then
    ({ s with dialogStartTime := some now }).setMood .happy rv rp
  else s

def recordInteraction (s : Store) (now : Nat) : Store :=
  { s with lastInteractionTime := some now }

/-- Partial update merged by `updateDeviceState` (object spread). -/
structure DeviceUpdate where
  volume : Option Int := none
  brightness : Option Int := none
  mood : Option Mood := none
  expression : Option String := none
  headPose : Option HeadPose := none
  deriving DecidableEq, Repr

def DeviceUpdate.isEmpty (u : DeviceUpdate) : Bool :=
  u.volume.isNone && u.brightness.isNone && u.mood.isNone &&
  u.expression.isNone && u.headPose.isNone

def updateDeviceState (s : Store) (u : DeviceUpdate) : Store :=
  { s with deviceState :=
    { volume := u.volume.getD s.deviceState.volume
      brightness := u.brightness.getD s.deviceState.brightness
      mood := u.mood.getD s.deviceState.mood
      expression := u.expression.getD s.deviceState.expression
      headPose := u.headPose.getD s.deviceState.headPose } }

def isAwake (s : Store) : Bool := s.state ≠ .DVR_IDLE

end Store

/-! ## Tool registry (tools/registry.ts, local variant)

`setDeviceState` reads the current device state, accumulates a partial
`updates` record and an `errors` array, applies the shared
volume/brightness cooldown, merges the updates and returns
`{ ok, error?, state }` with the post-update state. -/

structure HeadPoseArgs where
  yaw : Option Int := none
  pitch : Option Int := none
  roll : Option Int := none
  deriving DecidableEq, Repr

structure SetDeviceStateArgs where
  volume : Option Int := none
  brightness : Option Int := none
  expression : Option String := none
  headPose : Option HeadPoseArgs := none
  deriving DecidableEq, Repr

structure SetDeviceStateOut where
  ok : Bool
  errors : List String
  /-- the merged device state, as returned and as stored -/
  state : LocalDeviceState
  cooldown : Cooldown
  deriving DecidableEq, Repr

def setDeviceState (cool : Cooldown) (cur : LocalDeviceState)
    (args : SetDeviceStateArgs) (now : Nat) : SetDeviceStateOut :=
  let cooldownOk := cool.canAct now
  -- Volume change with limits
  let volPart : Option Int × List String :=
    match args.volume with
    | none => (none, [])
    | some v =>
      if ¬ cooldownOk ∧ cur.volume ≠ v then (none, ["Volume change rate limited"])
      else
        let delta := v - cur.volume
        let clampedDelta := clampI (-VOLUME_BRIGHTNESS_MAX_DELTA) VOLUME_BRIGHTNESS_MAX_DELTA delta
        (some (clampI 0 100 (cur.volume + clampedDelta)), [])
  -- Brightness change with limits
  let brightPart : Option Int × List String :=
    match args.brightness with
    | none => (none, [])
    | some b =>
      if ¬ cooldownOk ∧ cur.brightness ≠ b then (none, ["Brightness change rate limited"])
      else
        let delta := b - cur.brightness
        let clampedDelta := clampI (-VOLUME_BRIGHTNESS_MAX_DELTA) VOLUME_BRIGHTNESS_MAX_DELTA delta
        (some (clampI 0 100 (cur.brightness + clampedDelta)), [])
  -- Head pose: no rate limit, hard clamp of each component
  let poseUpd : Option HeadPose :=
    match args.headPose with
    | none => none
    | some hp => some
        { yaw := clampI (-45) 45 (hp.yaw.getD cur.headPose.yaw)
          pitch := clampI (-30) 30 (hp.pitch.getD cur.headPose.pitch)
          roll := clampI (-30) 30 (hp.roll.getD cur.headPose.roll) }
  let updates : Store.DeviceUpdate :=
    { volume := volPart.1, brightness := brightPart.1,
      expression := args.expression, headPose := poseUpd }
  let errors := volPart.2 ++ brightPart.2
  -- Apply updates (cooldown consumed only when some update exists and
  -- volume or brightness was requested)
  let (cool, newState) :=
    if updates.isEmpty then (cool, cur)
    else
      let cool := if args.volume.isSome || args.brightness.isSome
                  then (cool.act now).2 else cool
      (cool,
        { volume := updates.volume.getD cur.volume
          brightness := updates.brightness.getD cur.brightness
          mood := cur.mood
          expression := updates.expression.getD cur.expression
          headPose := updates.headPose.getD cur.headPose })
  { ok := errors.isEmpty, errors := errors, state := newState, cooldown := cool }

/-- Store-level wrapper: the tool reads `bobiStore.deviceState`, then calls
`bobiStore.updateDeviceState(updates)`. -/
def Store.setDeviceStateTool (s : Store) (cool : Cooldown)
    (args : SetDeviceStateArgs) (now : Nat) : SetDeviceStateOut × Store :=
  let out := setDeviceState cool s.deviceState args now
  (out, { s with deviceState := out.state })

/-! ### capture_frame gating (captureFrame / requestFrameCapture)

Both tool registries check, in order: per-camera cooldown, per-camera
sliding-window counter, `isAwake`/`canUploadData`; only if all pass do they
consume (`cooldown.act(); counter.act()`) and issue the external frame
request.  Rejections return `null`/an error string. -/

structure CamLimiter where
  cooldown : Cooldown
  counter : SlidingWindowCounter
  deriving DecidableEq, Repr

def CamLimiter.init : CamLimiter :=
  { cooldown := Cooldown.init CAPTURE_COOLDOWN_MS,
    counter := SlidingWindowCounter.init CAPTURE_MAX_PER_10S 10000 }

inductive CaptureOutcome
  | rejectedCooldown
  | rejectedWindow
  | rejectedIdle
  | proceed
  deriving DecidableEq, Repr

structure CaptureCheckResult where
  outcome : CaptureOutcome
  limiter : CamLimiter
  /-- whether an external frame request was issued -/
  frameRequested : Bool
  deriving DecidableEq, Repr

def captureFrameCheck (lim : CamLimiter) (isAwake : Bool) (now : Nat) :
    CaptureCheckResult :=
  if ¬ lim.cooldown.canAct now then
    { outcome := .rejectedCooldown, limiter := lim, frameRequested := false }
  else
    let r := lim.counter.canAct now
    let lim := { lim with counter := r.2 }
    if ¬ r.1 then
      { outcome := .rejectedWindow, limiter := lim, frameRequested := false }
    else if ¬ isAwake then
      { outcome := .rejectedIdle, limiter := lim, frameRequested := false }
    else
      let cd := lim.cooldown.act now
      let ct := lim.counter.act now
      { outcome := .proceed, limiter := { cooldown := cd.2, counter := ct.2 },
        frameRequested := true }

/-! ## Local orchestrator (src/local/src/core/orchestrator/index.ts)

Modelled fields: the shared store, whether the LLM provider is connected,
and the two `setTimeout` handles as absolute deadlines.  `connectLLM` is a
network operation; its success is injected as a boolean parameter of
`wake`.  Asynchronously scheduled callbacks (the 500 ms greeting, the
1.5 s pose revert, the 5 s standby delay) are separate events and are not
folded into the synchronous part of the operations that schedule them. -/

structure Orch where
  store : Store
  llmConnected : Bool
  awakeTimerDeadline : Option Nat
  dialogTimerDeadline : Option Nat
  deriving DecidableEq, Repr

namespace Orch

def init : Orch :=
  { store := Store.init, llmConnected := false,
    awakeTimerDeadline := none, dialogTimerDeadline := none }

def startAwakeTimer (o : Orch) (now : Nat) : Orch :=
  { o with awakeTimerDeadline := some (now + AWAKE_WINDOW_MS) }

def resetAwakeTimer (o : Orch) (now : Nat) : Orch :=
  if o.store.isAwake then o.startAwakeTimer now else o

def startDialogTimer (o : Orch) (now : Nat) : Orch :=
  { o with dialogTimerDeadline := some (now + MAX_DIALOG_DURATION_MS) }

/-- `wake()`: when already in `ACTIVE_DIALOG` with a connected LLM, only the
awake timer is reset; otherwise the store is forced to `AWAKE_LISTEN`, the
LLM is (re)connected and the awake timer restarted. -/
def wake (o : Orch) (now : Nat) (rv rp : Nat) (connectSucceeds : Bool) : Orch :=
  if o.store.state = .ACTIVE_DIALOG ∧ o.llmConnected then
    o.resetAwakeTimer now
  else
    let o := { o with store := o.store.setState .AWAKE_LISTEN now rv rp }
    let o := { o with llmConnected := o.llmConnected || connectSucceeds }
    o.startAwakeTimer now

/-- `sleep()`: full shutdown to DVR idle. -/
def sleep (o : Orch) (now : Nat) (rv rp : Nat) : Orch :=
  let o := { o with store := o.store.setState .DVR_IDLE now rv rp }
  let o := { o with llmConnected := false }
  { o with awakeTimerDeadline := none, dialogTimerDeadline := none }

/-- `standby()`: disconnect but remain listening. -/
def standby (o : Orch) (now : Nat) (rv rp : Nat) : Orch :=
  let o := { o with store := o.store.setState .AWAKE_LISTEN now rv rp }
  let o := { o with llmConnected := false }
  { o with awakeTimerDeadline := none, dialogTimerDeadline := none }

/-- `startDialog()`. -/
def startDialog (o : Orch) (now : Nat) (rv rp : Nat) : Orch :=
  let o :=
    if o.store.state ≠ .ACTIVE_DIALOG then
      let o := { o with store := o.store.setState .ACTIVE_DIALOG now rv rp }
      o.startDialogTimer now
    else o
  o.resetAwakeTimer now

/-- The `toolCall` handler's `capture_frame` bracket: unconditional
`setState('VISION_CHECK')` before `executeTool` ... -/
def captureToolBegin (o : Orch) (now : Nat) (rv rp : Nat) : Orch :=
  { o with store := o.store.setState .VISION_CHECK now rv rp }

/-- ... and unconditional `setState('ACTIVE_DIALOG')` after it. -/
def captureToolEnd (o : Orch) (now : Nat) (rv rp : Nat) : Orch :=
  { o with store := o.store.setState .ACTIVE_DIALOG now rv rp }

/-- First phase of `handleGimbalTouched()`: surprised expression and an
unclamped ±15° yaw nudge (`randHigh` injects `Math.random() > 0.5`); the
scheduled revert 1.5 s later is a separate store update. -/
def handleGimbalTouched (o : Orch) (randHigh : Bool) : Orch :=
  let currentYaw := o.store.deviceState.headPose.yaw
  let upd : Store.DeviceUpdate :=
    { expression := some "surprised"
      headPose := some
        { yaw := currentYaw + (if randHigh then 15 else -15)
          pitch := o.store.deviceState.headPose.pitch
          roll := 0 } }
  { o with store := o.store.updateDeviceState upd }

end Orch

/-! ## Pending frame requests (store.ts requestFrame / fulfillFrameRequest)

`requestFrame` registers a resolver under a fresh id `frame_${++frameRequestId}`
(ids are modelled by the underlying counter value) and schedules a 10 s
timeout that resolves the promise with `null` if the resolver is still
registered; `fulfillFrameRequest` resolves and deletes the resolver if — and
only if — it is still registered.  A promise resolution is recorded by
appending to `resolvedLog`. -/

structure CapturedFrame where
  imageDataUrl : String
  camera : String
  ts : Nat
  deriving DecidableEq, Repr

structure FrameStore where
  frameRequestId : Nat
  /-- registered resolvers: (request id, timeout deadline) -/
  pending : List (Nat × Nat)
  /-- log of promise resolutions: (request id, value) -/
  resolvedLog : List (Nat × Option CapturedFrame)
  deriving DecidableEq, Repr

namespace FrameStore

def init : FrameStore := ⟨0, [], []⟩

inductive Event
  /-- `captureFrame` issuing `requestFrame` at time `now` -/
  | request (now : Nat)
  /-- the UI calling `fulfillFrameRequest(id, frame)` -/
  | fulfill (id : Nat) (frame : Option CapturedFrame)
  /-- the scheduled 10 s timeout callback for `id` firing at its deadline -/
  | timeoutFire (id : Nat) (now : Nat)
  deriving DecidableEq, Repr

def pendingIds (s : FrameStore) : List Nat := s.pending.map Prod.fst

def fstep (s : FrameStore) : Event → FrameStore
  | .request now =>
      let id := s.frameRequestId + 1
      { s with frameRequestId := id, pending := s.pending ++ [(id, now + 10000)] }
  | .fulfill id frame =>
      if s.pending.any (fun p => p.1 = id) then
        { s with pending := s.pending.filter (fun p => ¬ p.1 = id),
                 resolvedLog := s.resolvedLog ++ [(id, frame)] }
      else s
  | .timeoutFire id now =>
      match s.pending.find? (fun p => p.1 = id) with
      | some pd =>
          if pd.2 = now then
            { s with pending := s.pending.filter (fun p => ¬ p.1 = id),
                     resolvedLog := s.resolvedLog ++ [(id, none)] }
          else s
      | none => s

def run (s : FrameStore) : List Event → FrameStore
  | [] => s
  | e :: rest => (s.fstep e).run rest

/-- Number of pending entries for a request id (specification layer). -/
def pcount (s : FrameStore) (id : Nat) : Nat :=
  s.pending.countP (fun p => p.1 = id)

/-- Number of recorded resolutions for a request id (specification layer). -/
def rcount (s : FrameStore) (id : Nat) : Nat :=
  s.resolvedLog.countP (fun p => p.1 = id)

/-- Reachability invariant: every id is pending-or-resolved at most once
overall, and ids above the counter are untouched. -/
def Inv (s : FrameStore) : Prop :=
  ∀ id, pcount s id + rcount s id ≤ 1 ∧
    (s.frameRequestId < id → pcount s id = 0 ∧ rcount s id = 0)

end FrameStore

/-! # Theorems -/

/-! ## State-projection lemmas for the server state machine -/

namespace SM

@[simp] theorem transition_state (m : SM) (ns : BobiState) :
    (m.transition ns).context.state = ns := by
  unfold transition; split <;> simp_all

@[simp] theorem updateDeviceState_context (m : SM) (u : DeviceUpdate) :
    (m.updateDeviceState u).context = m.context := rfl

@[simp] theorem wake_state (m : SM) (now : Nat) :
    (m.wake now).context.state =
      if m.context.state = .DVR_IDLE then .AWAKE_LISTEN else m.context.state := by
  unfold wake refreshAwakeTimer startAwakeTimer
  split <;> simp_all

@[simp] theorem enterDVRIdle_state (m : SM) (now : Nat) :
    (m.enterDVRIdle now).context.state = .DVR_IDLE := by
  unfold enterDVRIdle clearTimers
  simp

@[simp] theorem startDialog_state (m : SM) (now : Nat) :
    (m.startDialog now).context.state =
      if m.context.state = .DVR_IDLE then .DVR_IDLE else .ACTIVE_DIALOG := by
  unfold startDialog startDialogTimer handleDialogTimeout clearTimers
  split
  · simp_all
  · simp

@[simp] theorem enterVisionCheck_state (m : SM) (now : Nat) :
    (m.enterVisionCheck now).context.state =
      if m.context.state = .DVR_IDLE then .DVR_IDLE else .VISION_CHECK := by
  unfold enterVisionCheck
  split <;> simp_all

@[simp] theorem exitVisionCheck_state (m : SM) :
    m.exitVisionCheck.context.state =
      if m.context.state = .VISION_CHECK then .ACTIVE_DIALOG else m.context.state := by
  unfold exitVisionCheck
  split <;> simp_all

@[simp] theorem recordInteraction_state (m : SM) (now : Nat) :
    (m.recordInteraction now).context.state = m.context.state := by
  simp only [recordInteraction, refreshAwakeTimer, startAwakeTimer, refreshDialogTimer]
  split
  · simp
  · split <;> simp

@[simp] theorem setSessionId_state (m : SM) (sid : String) :
    (m.setSessionId sid).context.state = m.context.state := rfl

@[simp] theorem handleDialogTimeout_state (m : SM) :
    m.handleDialogTimeout.context.state = m.context.state := rfl

theorem transition_eq (m : SM) (ns : BobiState) :
    m.transition ns = { m with context := { m.context with state := ns } } := by
  unfold transition
  split
  · rename_i h
    obtain ⟨⟨s, a, d, l, si⟩, dev, at_, dt, dr, de⟩ := m
    simp_all
  · rfl

end SM

/-! ## C1 — VisionCheck entry/exit discipline -/

/-- **C1** (amended): in the server state machine, a step that enters
`VISION_CHECK` starts from `AWAKE_LISTEN` or `ACTIVE_DIALOG` (never from
`DVR_IDLE` — but, contrary to the claim, `AWAKE_LISTEN` is possible), and a
step that leaves `VISION_CHECK` lands in `ACTIVE_DIALOG` or directly in
`DVR_IDLE` (via `enterDVRIdle`/awake-timeout), never in `AWAKE_LISTEN`. -/
theorem c1_visionCheck_amended (m : SM) (now : Nat) (e : SM.Event) :
    ((SM.step m now e).context.state = .VISION_CHECK →
      m.context.state ≠ .VISION_CHECK →
      m.context.state = .AWAKE_LISTEN ∨ m.context.state = .ACTIVE_DIALOG) ∧
    (m.context.state = .VISION_CHECK →
      (SM.step m now e).context.state ≠ .VISION_CHECK →
      (SM.step m now e).context.state = .ACTIVE_DIALOG ∨
      (SM.step m now e).context.state = .DVR_IDLE) := by
  refine ⟨fun h1 h2 => ?_, fun h1 h2 => ?_⟩ <;>
    cases e <;>
      simp_all [SM.step] <;>
      first
        | (split_ifs at * <;> simp_all)
        | (cases hst : m.context.state <;> simp_all)

/-- **C1** witness: concrete instantiation of the amended theorem at a
reachable state (`init` woken at t=1000, `enterVisionCheck` at t=2000). -/
theorem c1_visionCheck_amended_witness :
    (SM.init.wake 1000).context.state = .AWAKE_LISTEN ∨
    (SM.init.wake 1000).context.state = .ACTIVE_DIALOG :=
  (c1_visionCheck_amended (SM.init.wake 1000) 2000 .enterVisionCheck).1
    (by decide) (by decide)

/-- **C1** counterexample: the claim "VisionCheck is only entered when the
current state is Dialog" is false — from the reachable state
`AWAKE_LISTEN`, `enterVisionCheck` transitions to `VISION_CHECK`. -/
theorem c1_counterexample :
    ¬ (∀ (m : SM) (now : Nat) (e : SM.Event),
        (SM.step m now e).context.state = .VISION_CHECK →
        m.context.state ≠ .VISION_CHECK →
        m.context.state = .ACTIVE_DIALOG) := by
  intro h
  exact absurd (h (SM.init.wake 1000) 2000 .enterVisionCheck (by decide) (by decide))
    (by decide)

/-! ## C2 — entering Idle resets the session context -/

/-- **C2** (amended): `enterDVRIdle` nulls `awakeStartTime`,
`dialogStartTime` and `sessionId`, clears both timers and lands in
`DVR_IDLE`; `lastInteractionTime` is NOT reset — it keeps its previous
value. -/
theorem c2_enterIdle_amended (m : SM) (now : Nat) :
    (m.enterDVRIdle now).context.awakeStartTime = none ∧
    (m.enterDVRIdle now).context.dialogStartTime = none ∧
    (m.enterDVRIdle now).context.sessionId = none ∧
    (m.enterDVRIdle now).context.state = .DVR_IDLE ∧
    (m.enterDVRIdle now).awakeTimerDeadline = none ∧
    (m.enterDVRIdle now).dialogTimerDeadline = none ∧
    (m.enterDVRIdle now).context.lastInteractionTime = m.context.lastInteractionTime := by
  simp only [SM.enterDVRIdle, SM.clearTimers, SM.updateDeviceState, SM.transition]
  split <;> simp_all

/-- **C2** counterexample: after waking at t=1000 (which sets
`lastInteractionTime`), entering Idle leaves `lastInteractionTime = 1000`,
so the four context fields are not all null. -/
theorem c2_counterexample :
    ¬ (∀ (m : SM) (now : Nat),
        (m.enterDVRIdle now).context.awakeStartTime = none ∧
        (m.enterDVRIdle now).context.dialogStartTime = none ∧
        (m.enterDVRIdle now).context.lastInteractionTime = none ∧
        (m.enterDVRIdle now).context.sessionId = none) := by
  intro h
  exact absurd (h (SM.init.wake 1000) 2000).2.2.1 (by decide)

/-! ## C3 — the dialog hard cap is an absolute ceiling -/

/-- **C3** (amended): in the server state machine the ceiling is absolute —
once `dialogStartTime = t0` (with a realistic non-zero timestamp), a
`startDialog` re-entry keeps `t0` and schedules the wrap-up at exactly
`t0 + 180000` (or emits it immediately when already past), and
`recordInteraction` / `enterVisionCheck` / `exitVisionCheck` / `wake` change
neither `dialogStartTime` nor the dialog deadline; the timer firing at the
deadline emits the wrap-up signal.  In the local variant, however,
re-entering `ACTIVE_DIALOG` resets `dialogStartTime` (see the
counterexample), so the claim as stated fails there. -/
theorem c3_dialogCeiling_amended (m : SM) (now t0 : Nat)
    (hd : m.context.dialogStartTime = some t0) (h0 : 0 < t0) (hle : t0 ≤ now)
    (hst : m.context.state ≠ .DVR_IDLE) :
    ((m.startDialog now).context.dialogStartTime = some t0 ∧
      (now < t0 + MAX_DIALOG_DURATION_MS →
        (m.startDialog now).dialogTimerDeadline = some (t0 + MAX_DIALOG_DURATION_MS)) ∧
      (t0 + MAX_DIALOG_DURATION_MS ≤ now →
        (m.startDialog now).dialogTimeoutEmitted = true ∧
        (m.startDialog now).dialogTimerDeadline = none)) ∧
    ((m.recordInteraction now).context.dialogStartTime = some t0 ∧
      (m.recordInteraction now).dialogTimerDeadline = m.dialogTimerDeadline) ∧
    ((m.enterVisionCheck now).context.dialogStartTime = some t0 ∧
      (m.enterVisionCheck now).dialogTimerDeadline = m.dialogTimerDeadline) ∧
    (m.exitVisionCheck.context.dialogStartTime = some t0 ∧
      m.exitVisionCheck.dialogTimerDeadline = m.dialogTimerDeadline) ∧
    ((m.wake now).context.dialogStartTime = some t0 ∧
      (m.wake now).dialogTimerDeadline = m.dialogTimerDeadline) ∧
    (m.dialogTimerDeadline = some now →
      (SM.step m now .dialogTimerFire).dialogTimeoutEmitted = true) := by
  have hjs : jsOrElse m.context.dialogStartTime now = t0 := by
    rw [hd]; simp only [jsOrElse]; split <;> omega
  refine ⟨⟨?_, ?_, ?_⟩, ⟨?_, ?_⟩, ⟨?_, ?_⟩, ⟨?_, ?_⟩, ⟨?_, ?_⟩, ?_⟩
  · simp only [SM.startDialog, SM.clearTimers, SM.startDialogTimer, SM.handleDialogTimeout,
      SM.getDialogDurationMs, SM.transition_eq]
    simp [hst, hjs]
    split <;> simp
  · intro hlt
    simp only [SM.startDialog, SM.clearTimers, SM.startDialogTimer, SM.handleDialogTimeout,
      SM.getDialogDurationMs, SM.transition_eq]
    simp [hst, hjs]
    split
    · exfalso; omega
    · simp; omega
  · intro hge
    simp only [SM.startDialog, SM.clearTimers, SM.startDialogTimer, SM.handleDialogTimeout,
      SM.getDialogDurationMs, SM.transition_eq]
    simp [hst, hjs]
    split
    · simp
    · exfalso; omega
  · simp only [SM.recordInteraction, SM.refreshAwakeTimer, SM.startAwakeTimer,
      SM.refreshDialogTimer]
    split
    · simp [hd]
    · split <;> simp [hd]
  · simp only [SM.recordInteraction, SM.refreshAwakeTimer, SM.startAwakeTimer,
      SM.refreshDialogTimer]
    split
    · simp
    · split <;> simp
  · simp only [SM.enterVisionCheck, SM.updateDeviceState, SM.transition_eq]
    simp [hst, hd]
  · simp only [SM.enterVisionCheck, SM.updateDeviceState, SM.transition_eq]
    simp [hst]
  · simp only [SM.exitVisionCheck, SM.transition_eq]
    split <;> simp [hd]
  · simp only [SM.exitVisionCheck, SM.transition_eq]
    split <;> simp
  · simp only [SM.wake, SM.refreshAwakeTimer, SM.startAwakeTimer]
    simp [hst, hd]
  · simp only [SM.wake, SM.refreshAwakeTimer, SM.startAwakeTimer]
    simp [hst]
  · intro hdl
    simp [SM.step, hdl, SM.handleDialogTimeout]

/-- **C3** witness: a dialog started at t=5, re-entered via `startDialog` at
t=10, keeps `dialogStartTime = 5` and its wrap-up deadline `5 + 180000`. -/
theorem c3_dialogCeiling_amended_witness :
    (((SM.init.wake 0).startDialog 5).startDialog 10).context.dialogStartTime = some 5 ∧
    (((SM.init.wake 0).startDialog 5).startDialog 10).dialogTimerDeadline
      = some (5 + MAX_DIALOG_DURATION_MS) := by
  have h := c3_dialogCeiling_amended ((SM.init.wake 0).startDialog 5) 10 5
    (by decide) (by decide) (by decide) (by decide)
  exact ⟨h.1.1, h.1.2.1 (by decide)⟩

/-- **C3** counterexample: in the local store, re-entering `ACTIVE_DIALOG`
from `VISION_CHECK` (the state bracket of every capture_frame tool call)
resets `dialogStartTime` to the re-entry time — the ceiling is not anchored
to the original dialog start. -/
theorem c3_counterexample :
    ¬ (∀ (s : Store) (now rv rp : Nat),
        s.state = .VISION_CHECK →
        (s.setState .ACTIVE_DIALOG now rv rp).dialogStartTime = s.dialogStartTime) := by
  intro h
  exact absurd
    (h (((Store.init.setState .AWAKE_LISTEN 1000 0 0).setState .ACTIVE_DIALOG 2000 0 0).setState
        .VISION_CHECK 3000 0 0) 4000 0 0 (by decide))
    (by decide)

/-! ## C4 — wake() in a non-Idle state -/

/-- **C4** (amended): in the server state machine, `wake()` from any
non-Idle state leaves the state unchanged and resets the awake window, so
that immediately afterwards `getAwakeRemainingMs` is the full window.  (In
the local orchestrator this only holds for `Listening`, and for `Dialog`
with a connected LLM — see the counterexample.) -/
theorem c4_wake_amended (m : SM) (now : Nat) (h : m.context.state ≠ .DVR_IDLE) :
    (m.wake now).context.state = m.context.state ∧
    (m.wake now).getAwakeRemainingMs now = AWAKE_WINDOW_MS := by
  constructor
  · simp [h]
  · unfold SM.wake SM.refreshAwakeTimer SM.startAwakeTimer SM.getAwakeRemainingMs
    simp [h]

/-- **C4** witness: re-waking the machine woken at t=0 at t=500 keeps the
state and restores the full 20 s window. -/
theorem c4_wake_amended_witness :
    ((SM.init.wake 0).wake 500).context.state = (SM.init.wake 0).context.state ∧
    ((SM.init.wake 0).wake 500).getAwakeRemainingMs 500 = AWAKE_WINDOW_MS :=
  c4_wake_amended (SM.init.wake 0) 500 (by decide)

/-- **C4** counterexample: in the local orchestrator, `wake()` from the
reachable non-Idle state `VISION_CHECK` (entered by a capture_frame tool
call mid-dialog) forces the store to `AWAKE_LISTEN`, changing the session
state. -/
theorem c4_counterexample :
    ¬ (∀ (o : Orch) (now rv rp : Nat) (cs : Bool),
        o.store.state ≠ .DVR_IDLE →
        (o.wake now rv rp cs).store.state = o.store.state) := by
  intro h
  exact absurd
    (h (((Orch.init.wake 1000 0 0 true).startDialog 1500 0 0).captureToolBegin 2000 0 0)
      3000 0 0 true (by decide))
    (by decide)

/-! ## Sliding-window counter lemmas (shared by C5 and C6) -/

namespace SlidingWindowCounter

theorem cleanup_future (c : SlidingWindowCounter) (now t' : Nat) (h : now ≤ t') :
    ((c.cleanup now).cleanup t').timestamps = (c.cleanup t').timestamps := by
  simp only [cleanup]
  rw [List.filter_filter]
  refine List.filter_congr (fun x hx => ?_)
  by_cases hp : t' - x < c.windowMs
  · have hq : now - x < c.windowMs := by omega
    simp [hp, hq]
  · simp [hp]

theorem cleanup_eq_of_full (c : SlidingWindowCounter) (now : Nat)
    (hlen : c.timestamps.length ≤ c.maxCount)
    (hrej : ¬ (c.cleanup now).timestamps.length < (c.cleanup now).maxCount) :
    (c.cleanup now).timestamps = c.timestamps := by
  apply List.Sublist.eq_of_length (List.filter_sublist _)
  have h1 := List.length_filter_le (fun t => decide (now - t < c.windowMs)) c.timestamps
  simp only [cleanup] at *
  omega

theorem cleanup_self (c : SlidingWindowCounter) (now : Nat)
    (h : (c.cleanup now).timestamps = c.timestamps) : c.cleanup now = c := by
  cases c; simp_all [cleanup]

theorem act_true (c : SlidingWindowCounter) (now : Nat)
    (hkeep : ∀ t ∈ c.timestamps, now - t < c.windowMs)
    (hlen : c.timestamps.length < c.maxCount) :
    c.act now = (true, { c with timestamps := c.timestamps ++ [now] }) := by
  have hfil : c.timestamps.filter (fun t => now - t < c.windowMs) = c.timestamps :=
    List.filter_eq_self.mpr (fun a ha => by simpa using hkeep a ha)
  simp [act, canAct, cleanup, hfil, hlen]

theorem act_false (c : SlidingWindowCounter) (now : Nat)
    (hkeep : ∀ t ∈ c.timestamps, now - t < c.windowMs)
    (hlen : ¬ c.timestamps.length < c.maxCount) :
    c.act now = (false, c) := by
  have hfil : c.timestamps.filter (fun t => now - t < c.windowMs) = c.timestamps :=
    List.filter_eq_self.mpr (fun a ha => by simpa using hkeep a ha)
  simp [act, canAct, cleanup, hfil, hlen]

theorem act_fst (c : SlidingWindowCounter) (now : Nat) :
    (c.act now).1 = (c.canAct now).1 := by
  simp only [act]
  split <;> simp_all

end SlidingWindowCounter

/-! ## C5 — rejected capture_frame calls consume nothing -/

/-- **C5** (amended): on every rejection path (cooldown, window or Idle)
the capture pipeline issues no frame request, leaves the cooldown
untouched, appends no timestamp (the resulting counter list is a sublist of
the original), and the counter is observationally unchanged (pruning at any
future instant gives the same list).  On the cooldown- and window-rejection
paths both limiters are *exactly* unchanged (the window case under the
always-true reachability invariant `length ≤ maxCount`); on the
Idle-rejection path the counter may have pruned already-expired timestamps
— which the claim's "states are unchanged" wording overlooks. -/
theorem c5_captureReject_amended (lim : CamLimiter) (isAwake : Bool) (now : Nat)
    (h : (captureFrameCheck lim isAwake now).outcome ≠ .proceed) :
    (captureFrameCheck lim isAwake now).frameRequested = false ∧
    (captureFrameCheck lim isAwake now).limiter.cooldown = lim.cooldown ∧
    (captureFrameCheck lim isAwake now).limiter.counter.timestamps.Sublist
      lim.counter.timestamps ∧
    (∀ t', now ≤ t' →
      ((captureFrameCheck lim isAwake now).limiter.counter.cleanup t').timestamps
        = (lim.counter.cleanup t').timestamps) ∧
    ((captureFrameCheck lim isAwake now).outcome = .rejectedCooldown →
      (captureFrameCheck lim isAwake now).limiter = lim) ∧
    ((captureFrameCheck lim isAwake now).outcome = .rejectedWindow →
      lim.counter.timestamps.length ≤ lim.counter.maxCount →
      (captureFrameCheck lim isAwake now).limiter = lim) := by
  by_cases hc : lim.cooldown.canAct now
  · by_cases hw : (lim.counter.cleanup now).timestamps.length <
        (lim.counter.cleanup now).maxCount
    · by_cases ha : isAwake
      · exfalso
        apply h
        simp [captureFrameCheck, SlidingWindowCounter.canAct, hc, hw, ha]
      · have hres : captureFrameCheck lim isAwake now =
            { outcome := .rejectedIdle,
              limiter := { lim with counter := lim.counter.cleanup now },
              frameRequested := false } := by
          simp [captureFrameCheck, SlidingWindowCounter.canAct, hc, hw, ha]
        rw [hres]
        refine ⟨rfl, rfl, List.filter_sublist _,
          fun t' ht' => SlidingWindowCounter.cleanup_future _ _ _ ht', ?_, ?_⟩ <;>
          (intro hx; exact absurd hx (by simp))
    · have hres : captureFrameCheck lim isAwake now =
          { outcome := .rejectedWindow,
            limiter := { lim with counter := lim.counter.cleanup now },
            frameRequested := false } := by
        simp [captureFrameCheck, SlidingWindowCounter.canAct, hc, hw]
      rw [hres]
      refine ⟨rfl, rfl, List.filter_sublist _,
        fun t' ht' => SlidingWindowCounter.cleanup_future _ _ _ ht', ?_, ?_⟩
      · intro hx; exact absurd hx (by simp)
      · intro _ hl
        have hcc : lim.counter.cleanup now = lim.counter :=
          SlidingWindowCounter.cleanup_self _ _
            (SlidingWindowCounter.cleanup_eq_of_full _ _ hl hw)
        rw [hcc]
  · have hres : captureFrameCheck lim isAwake now =
        { outcome := .rejectedCooldown, limiter := lim, frameRequested := false } := by
      simp [captureFrameCheck, hc]
    rw [hres]
    exact ⟨rfl, rfl, List.Sublist.refl _, fun t' ht' => rfl,
      fun hx => rfl, fun hx hl => rfl⟩

/-- **C5** witness: a fresh limiter checked at t=100 is still inside the
800 ms cooldown window, so the call is rejected with both limiters exactly
unchanged. -/
theorem c5_captureReject_amended_witness :
    (captureFrameCheck CamLimiter.init true 100).frameRequested = false ∧
    (captureFrameCheck CamLimiter.init true 100).limiter = CamLimiter.init := by
  have h := c5_captureReject_amended CamLimiter.init true 100 (by decide)
  exact ⟨h.1, h.2.2.2.2.1 (by decide)⟩

/-- **C5** counterexample: a capture rejected because the state is Idle can
still change the window counter's stored state — after a successful capture
at t=5000, a rejected call at t=20000 prunes the expired timestamp list
from `[5000]` to `[]`, so "both limiters' states are unchanged" is false as
stated. -/
theorem c5_counterexample :
    ¬ (∀ (lim : CamLimiter) (isAwake : Bool) (now : Nat),
        (captureFrameCheck lim isAwake now).outcome ≠ .proceed →
        (captureFrameCheck lim isAwake now).limiter = lim) := by
  intro h
  exact absurd
    (h (captureFrameCheck CamLimiter.init true 5000).limiter false 20000 (by decide))
    (by decide)

/-! ## C6 — SlidingWindowCounter(3, 10000) behaviour -/

/-- **C6**: from an empty `SlidingWindowCounter(3, 10000)`, three `act()`
calls within 10 s all succeed; a fourth inside the same window fails and
appends nothing; once 10 s have elapsed since the first call a subsequent
`act()` succeeds again.  In general `canAct()` prunes the timestamps older
than the window and holds iff fewer than `maxCount` remain. -/
theorem c6_slidingWindow (t0 t1 t2 t3 t4 : Nat)
    (h01 : t0 ≤ t1) (h12 : t1 ≤ t2) (h23 : t2 ≤ t3)
    (hwin : t3 < t0 + 10000) (hten : t0 + 10000 ≤ t4) :
    ((SlidingWindowCounter.init 3 10000).act t0
      = (true, ⟨3, 10000, [t0]⟩) ∧
     (SlidingWindowCounter.mk 3 10000 [t0]).act t1
      = (true, ⟨3, 10000, [t0, t1]⟩) ∧
     (SlidingWindowCounter.mk 3 10000 [t0, t1]).act t2
      = (true, ⟨3, 10000, [t0, t1, t2]⟩)) ∧
    ((SlidingWindowCounter.mk 3 10000 [t0, t1, t2]).act t3
      = (false, ⟨3, 10000, [t0, t1, t2]⟩)) ∧
    ((SlidingWindowCounter.mk 3 10000 [t0, t1, t2]).act t4).1 = true ∧
    (∀ (c : SlidingWindowCounter) (now : Nat),
      ((c.canAct now).1 = true ↔
        (c.timestamps.filter (fun t => now - t < c.windowMs)).length < c.maxCount) ∧
      (c.canAct now).2.timestamps
        = c.timestamps.filter (fun t => now - t < c.windowMs)) := by
  refine ⟨⟨?_, ?_, ?_⟩, ?_, ?_, ?_⟩
  · exact SlidingWindowCounter.act_true _ _ (by simp [SlidingWindowCounter.init])
      (by simp [SlidingWindowCounter.init])
  · refine SlidingWindowCounter.act_true _ _ ?_ (by simp)
    intro t ht
    simp at ht ⊢
    omega
  · refine SlidingWindowCounter.act_true _ _ ?_ (by simp)
    intro t ht
    simp at ht ⊢
    rcases ht with rfl | rfl <;> omega
  · refine SlidingWindowCounter.act_false _ _ ?_ (by simp)
    intro t ht
    simp at ht ⊢
    rcases ht with rfl | rfl | rfl <;> omega
  · have hdrop : ¬ (t4 - t0 < 10000) := by omega
    rw [SlidingWindowCounter.act_fst]
    simp [SlidingWindowCounter.canAct, SlidingWindowCounter.cleanup, List.filter_cons, hdrop]
    split_ifs <;> simp
  · intro c now
    exact ⟨by simp [SlidingWindowCounter.canAct, SlidingWindowCounter.cleanup], rfl⟩

/-- **C6** witness: the scenario at the concrete times 0, 1, 2, 3, 10000. -/
theorem c6_slidingWindow_witness :
    ((SlidingWindowCounter.init 3 10000).act 0 = (true, ⟨3, 10000, [0]⟩)) ∧
    ((SlidingWindowCounter.mk 3 10000 [0, 1, 2]).act 3
      = (false, ⟨3, 10000, [0, 1, 2]⟩)) ∧
    ((SlidingWindowCounter.mk 3 10000 [0, 1, 2]).act 10000).1 = true := by
  have h := c6_slidingWindow 0 1 2 3 10000 (by decide) (by decide) (by decide)
    (by decide) (by decide)
  exact ⟨h.1.1, h.2.1, h.2.2.1⟩

/-! ## setDeviceState lemmas (shared by C7 and C10) -/

theorem setDeviceState_volume_eq (cool : Cooldown) (cur : LocalDeviceState)
    (ab : Option Int) (ae : Option String) (ah : Option HeadPoseArgs) (v : Int)
    (now : Nat) (hcd : cool.canAct now = true) :
    (setDeviceState cool cur ⟨some v, ab, ae, ah⟩ now).state.volume
      = clampI 0 100 (cur.volume +
          clampI (-VOLUME_BRIGHTNESS_MAX_DELTA) VOLUME_BRIGHTNESS_MAX_DELTA
            (v - cur.volume)) := by
  simp [setDeviceState, hcd, Store.DeviceUpdate.isEmpty]

theorem setDeviceState_brightness_eq (cool : Cooldown) (cur : LocalDeviceState)
    (av : Option Int) (ae : Option String) (ah : Option HeadPoseArgs) (b : Int)
    (now : Nat) (hcd : cool.canAct now = true) :
    (setDeviceState cool cur ⟨av, some b, ae, ah⟩ now).state.brightness
      = clampI 0 100 (cur.brightness +
          clampI (-VOLUME_BRIGHTNESS_MAX_DELTA) VOLUME_BRIGHTNESS_MAX_DELTA
            (b - cur.brightness)) := by
  cases av <;> simp [setDeviceState, hcd, Store.DeviceUpdate.isEmpty]

theorem clampI_delta_bounds (cur target : Int) (h0 : 0 ≤ cur) (h1 : cur ≤ 100) :
    cur - 15 ≤ clampI 0 100 (cur + clampI (-15) 15 (target - cur)) ∧
    clampI 0 100 (cur + clampI (-15) 15 (target - cur)) ≤ cur + 15 ∧
    min cur target ≤ clampI 0 100 (cur + clampI (-15) 15 (target - cur)) ∧
    clampI 0 100 (cur + clampI (-15) 15 (target - cur)) ≤ max cur target := by
  simp only [clampI, max_def, min_def]
  split_ifs <;> omega

/-! ## C7 — delta-clamped volume/brightness updates -/

/-- **C7**: when the shared cooldown is eligible, `set_device_state` moves
volume (and brightness) to
`clamp(0, 100, current + clamp(-15, 15, target - current))`: at most 15
away from the current value, toward (and never past) the requested target,
and inside 0–100.  The witness instantiates the claim's example
`{volume: 100}` from volume 50, giving 65. -/
theorem c7_deltaClamp (cool : Cooldown) (cur : LocalDeviceState) (args : SetDeviceStateArgs)
    (now : Nat) (hcd : cool.canAct now = true)
    (hv0 : 0 ≤ cur.volume) (hv1 : cur.volume ≤ 100)
    (hb0 : 0 ≤ cur.brightness) (hb1 : cur.brightness ≤ 100) :
    (∀ v, args.volume = some v →
      (setDeviceState cool cur args now).state.volume
          = clampI 0 100 (cur.volume +
              clampI (-VOLUME_BRIGHTNESS_MAX_DELTA) VOLUME_BRIGHTNESS_MAX_DELTA
                (v - cur.volume)) ∧
      cur.volume - 15 ≤ (setDeviceState cool cur args now).state.volume ∧
      (setDeviceState cool cur args now).state.volume ≤ cur.volume + 15 ∧
      min cur.volume v ≤ (setDeviceState cool cur args now).state.volume ∧
      (setDeviceState cool cur args now).state.volume ≤ max cur.volume v) ∧
    (∀ b, args.brightness = some b →
      (setDeviceState cool cur args now).state.brightness
          = clampI 0 100 (cur.brightness +
              clampI (-VOLUME_BRIGHTNESS_MAX_DELTA) VOLUME_BRIGHTNESS_MAX_DELTA
                (b - cur.brightness)) ∧
      cur.brightness - 15 ≤ (setDeviceState cool cur args now).state.brightness ∧
      (setDeviceState cool cur args now).state.brightness ≤ cur.brightness + 15 ∧
      min cur.brightness b ≤ (setDeviceState cool cur args now).state.brightness ∧
      (setDeviceState cool cur args now).state.brightness ≤ max cur.brightness b) := by
  obtain ⟨av, ab, ae, ah⟩ := args
  constructor
  · rintro v rfl
    have heq := setDeviceState_volume_eq cool cur ab ae ah v now hcd
    have hb := clampI_delta_bounds cur.volume v hv0 hv1
    rw [heq]
    exact ⟨rfl, hb.1, hb.2.1, hb.2.2.1, hb.2.2.2⟩
  · rintro b rfl
    have heq := setDeviceState_brightness_eq cool cur av ae ah b now hcd
    have hb := clampI_delta_bounds cur.brightness b hb0 hb1
    rw [heq]
    exact ⟨rfl, hb.1, hb.2.1, hb.2.2.1, hb.2.2.2⟩

/-- **C7** witness: `set_device_state({volume: 100})` from volume 50 yields
65, not 100. -/
theorem c7_deltaClamp_witness :
    (setDeviceState (Cooldown.init 300) Store.init.deviceState
      { volume := some 100 } 1000).state.volume = 65 := by
  have h := (c7_deltaClamp (Cooldown.init 300) Store.init.deviceState
      { volume := some 100 } 1000 (by decide) (by decide) (by decide) (by decide)
      (by decide)).1 100 rfl
  rw [h.1]
  decide

/-! ## C10 — equal-value requests during the cooldown -/

/-- **C10**: while the volume/brightness cooldown is active, a
`set_device_state` call requesting the current volume — and likewise the
current brightness — returns ok with no error, leaves the device state and
the cooldown unchanged; only a request that would actually change the
value is reported as rate-limited (and it, too, changes nothing). -/
theorem c10_cooldownEqualValue (cool : Cooldown) (cur : LocalDeviceState) (v b : Int)
    (now : Nat) (hcd : cool.canAct now = false)
    (hv0 : 0 ≤ cur.volume) (hv1 : cur.volume ≤ 100)
    (hb0 : 0 ≤ cur.brightness) (hb1 : cur.brightness ≤ 100) :
    (v = cur.volume →
      (setDeviceState cool cur ⟨some v, none, none, none⟩ now).ok = true ∧
      (setDeviceState cool cur ⟨some v, none, none, none⟩ now).errors = [] ∧
      (setDeviceState cool cur ⟨some v, none, none, none⟩ now).state = cur ∧
      (setDeviceState cool cur ⟨some v, none, none, none⟩ now).cooldown = cool) ∧
    (v ≠ cur.volume →
      (setDeviceState cool cur ⟨some v, none, none, none⟩ now).ok = false ∧
      (setDeviceState cool cur ⟨some v, none, none, none⟩ now).errors
        = ["Volume change rate limited"] ∧
      (setDeviceState cool cur ⟨some v, none, none, none⟩ now).state = cur ∧
      (setDeviceState cool cur ⟨some v, none, none, none⟩ now).cooldown = cool) ∧
    (b = cur.brightness →
      (setDeviceState cool cur ⟨none, some b, none, none⟩ now).ok = true ∧
      (setDeviceState cool cur ⟨none, some b, none, none⟩ now).errors = [] ∧
      (setDeviceState cool cur ⟨none, some b, none, none⟩ now).state = cur ∧
      (setDeviceState cool cur ⟨none, some b, none, none⟩ now).cooldown = cool) ∧
    (b ≠ cur.brightness →
      (setDeviceState cool cur ⟨none, some b, none, none⟩ now).ok = false ∧
      (setDeviceState cool cur ⟨none, some b, none, none⟩ now).errors
        = ["Brightness change rate limited"] ∧
      (setDeviceState cool cur ⟨none, some b, none, none⟩ now).state = cur ∧
      (setDeviceState cool cur ⟨none, some b, none, none⟩ now).cooldown = cool) := by
  refine ⟨?_, ?_, ?_, ?_⟩
  · rintro rfl
    have hclamp : clampI 0 100 (cur.volume + clampI (-VOLUME_BRIGHTNESS_MAX_DELTA)
        VOLUME_BRIGHTNESS_MAX_DELTA (cur.volume - cur.volume)) = cur.volume := by
      simp only [clampI, max_def, min_def, VOLUME_BRIGHTNESS_MAX_DELTA]
      split_ifs <;> omega
    obtain ⟨cv, cb, cm, ce, ch⟩ := cur
    simp_all [setDeviceState, hcd, Store.DeviceUpdate.isEmpty, Cooldown.act]
  · intro hne
    have hne2 : ¬ (cur.volume = v) := fun hx => hne hx.symm
    simp [setDeviceState, hcd, hne2, Store.DeviceUpdate.isEmpty]
  · rintro rfl
    have hclamp : clampI 0 100 (cur.brightness + clampI (-VOLUME_BRIGHTNESS_MAX_DELTA)
        VOLUME_BRIGHTNESS_MAX_DELTA (cur.brightness - cur.brightness)) = cur.brightness := by
      simp only [clampI, max_def, min_def, VOLUME_BRIGHTNESS_MAX_DELTA]
      split_ifs <;> omega
    obtain ⟨cv, cb, cm, ce, ch⟩ := cur
    simp_all [setDeviceState, hcd, Store.DeviceUpdate.isEmpty, Cooldown.act]
  · intro hne
    have hne2 : ¬ (cur.brightness = b) := fun hx => hne hx.symm
    simp [setDeviceState, hcd, hne2, Store.DeviceUpdate.isEmpty]

/-- **C10** witness: with the cooldown started at t=1000 and a call at
t=1100, requesting volume 50 when the volume is already 50 — and likewise
brightness 70 when the brightness is already 70 — succeeds with no error
and no change. -/
theorem c10_cooldownEqualValue_witness :
    ((setDeviceState ⟨300, 1000⟩ Store.init.deviceState
      ⟨some 50, none, none, none⟩ 1100).ok = true ∧
    (setDeviceState ⟨300, 1000⟩ Store.init.deviceState
      ⟨some 50, none, none, none⟩ 1100).errors = [] ∧
    (setDeviceState ⟨300, 1000⟩ Store.init.deviceState
      ⟨some 50, none, none, none⟩ 1100).state = Store.init.deviceState ∧
    (setDeviceState ⟨300, 1000⟩ Store.init.deviceState
      ⟨some 50, none, none, none⟩ 1100).cooldown = ⟨300, 1000⟩) ∧
    ((setDeviceState ⟨300, 1000⟩ Store.init.deviceState
      ⟨none, some 70, none, none⟩ 1100).ok = true ∧
    (setDeviceState ⟨300, 1000⟩ Store.init.deviceState
      ⟨none, some 70, none, none⟩ 1100).errors = [] ∧
    (setDeviceState ⟨300, 1000⟩ Store.init.deviceState
      ⟨none, some 70, none, none⟩ 1100).state = Store.init.deviceState ∧
    (setDeviceState ⟨300, 1000⟩ Store.init.deviceState
      ⟨none, some 70, none, none⟩ 1100).cooldown = ⟨300, 1000⟩) :=
  ⟨(c10_cooldownEqualValue ⟨300, 1000⟩ Store.init.deviceState 50 70 1100
      (by decide) (by decide) (by decide) (by decide) (by decide)).1 (by decide),
   (c10_cooldownEqualValue ⟨300, 1000⟩ Store.init.deviceState 50 70 1100
      (by decide) (by decide) (by decide) (by decide) (by decide)).2.2.1 (by decide)⟩

/-! ## C8 — headPose range invariant -/

/-- **C8**: the gimbal-touch reaction violates the headPose range
invariant.  From the in-range pose `yaw = 40` — itself reached through the
clamped `set_device_state` path — `handleGimbalTouched` with
`Math.random() > 0.5` stores `yaw = 55 ∉ [-45, 45]`, because its nudge
`currentYaw + 15` is written through `updateDeviceState` without any
clamp. -/
theorem c8_headPose_gimbal_bug :
    ((Store.init.setDeviceStateTool (Cooldown.init 300)
        { headPose := some { yaw := some 40 } } 1000).2).deviceState.headPose.yaw = 40 ∧
    (Orch.handleGimbalTouched
        { Orch.init with store := (Store.init.setDeviceStateTool (Cooldown.init 300)
            { headPose := some { yaw := some 40 } } 1000).2 }
        true).store.deviceState.headPose.yaw = 55 ∧
    ¬ ((Orch.handleGimbalTouched
        { Orch.init with store := (Store.init.setDeviceStateTool (Cooldown.init 300)
            { headPose := some { yaw := some 40 } } 1000).2 }
        true).store.deviceState.headPose.yaw ≤ 45) := by
  refine ⟨by decide, by decide, by decide⟩

/-! ## C9 — pending frame requests resolve exactly once -/

namespace FrameStore

theorem inv_init : Inv init := by
  intro id
  simp [Inv, pcount, rcount, init]

theorem countP_pair_singleton {β : Type} (x : Nat) (y : β) (id : Nat) :
    List.countP (fun p => p.1 = id) [(x, y)] = if x = id then 1 else 0 := by
  by_cases hx : x = id <;> simp [List.countP_cons, hx]

theorem pcount_filter_self (l : List (Nat × Nat)) (id : Nat) :
    (l.filter (fun p => ¬ p.1 = id)).countP (fun p => p.1 = id) = 0 := by
  rw [List.countP_eq_zero]
  intro a ha
  have := List.of_mem_filter ha
  simp_all

theorem pcount_filter_other (l : List (Nat × Nat)) (id id0 : Nat) (h : id ≠ id0) :
    (l.filter (fun p => ¬ p.1 = id0)).countP (fun p => p.1 = id)
      = l.countP (fun p => p.1 = id) := by
  rw [List.countP_filter]
  refine List.countP_congr (fun a ha => ?_)
  by_cases hx : a.1 = id
  · simp [hx, h]
  · simp [hx]

theorem inv_resolve (fr : Nat) (pend : List (Nat × Nat))
    (log : List (Nat × Option CapturedFrame))
    (id0 : Nat) (frame : Option CapturedFrame)
    (hmem : 0 < pend.countP (fun p => p.1 = id0))
    (h : Inv ⟨fr, pend, log⟩) :
    Inv ⟨fr, pend.filter (fun p => ¬ p.1 = id0), log ++ [(id0, frame)]⟩ := by
  intro id
  obtain ⟨hsum, hfresh⟩ := h id
  simp only [pcount, rcount] at hsum hfresh ⊢
  rw [List.countP_append, countP_pair_singleton]
  by_cases hid : id = id0
  · subst hid
    rw [pcount_filter_self]
    simp only [if_true, eq_self_iff_true]
    refine ⟨by omega, fun hgt => absurd (hfresh hgt).1 (by omega)⟩
  · rw [pcount_filter_other _ _ _ hid, if_neg (fun hx => hid hx.symm)]
    exact ⟨by omega, fun hgt => ⟨(hfresh hgt).1, by have := (hfresh hgt).2; omega⟩⟩

theorem inv_fstep (s : FrameStore) (e : Event) (h : Inv s) : Inv (s.fstep e) := by
  obtain ⟨fr, pend, log⟩ := s
  cases e with
  | request now =>
    intro id
    obtain ⟨hsum, hfresh⟩ := h id
    obtain ⟨hfp, hfr2⟩ := (h (fr + 1)).2 (Nat.lt_succ_self fr)
    simp only [fstep, pcount, rcount] at *
    rw [List.countP_append, countP_pair_singleton]
    by_cases hid : fr + 1 = id
    · subst hid
      rw [if_pos rfl]
      exact ⟨by omega, fun hgt => by omega⟩
    · rw [if_neg hid]
      refine ⟨by omega, fun hgt => ?_⟩
      have hgt2 : fr < id := by exact lt_trans (Nat.lt_succ_self fr) (by exact hgt)
      obtain ⟨h1, h2⟩ := hfresh hgt2
      exact ⟨by omega, h2⟩
  | fulfill id0 frame =>
    simp only [fstep]
    split
    · rename_i hany
      have hmem : 0 < pend.countP (fun p => p.1 = id0) := by
        rw [List.countP_pos_iff]
        simpa using List.any_eq_true.mp hany
      exact inv_resolve fr pend log id0 frame hmem h
    · exact h
  | timeoutFire id0 now =>
    simp only [fstep]
    split
    · rename_i pd hfind
      split
      · have hp := List.find?_some hfind
        have hmeml := List.mem_of_find?_eq_some hfind
        have hmem : 0 < pend.countP (fun p => p.1 = id0) :=
          List.countP_pos_iff.mpr ⟨pd, hmeml, hp⟩
        exact inv_resolve fr pend log id0 none hmem h
      · exact h
    · exact h

theorem inv_run (s : FrameStore) (tr : List Event) (h : Inv s) : Inv (s.run tr) := by
  induction tr generalizing s with
  | nil => exact h
  | cons e rest ih => exact ih _ (inv_fstep s e h)

theorem find_unique (l : List (Nat × Nat)) (id d : Nat)
    (hmem : (id, d) ∈ l) (huniq : l.countP (fun p => p.1 = id) ≤ 1) :
    l.find? (fun p => p.1 = id) = some (id, d) := by
  induction l with
  | nil => cases hmem
  | cons a as ih =>
    by_cases hpa : a.1 = id
    · rw [List.find?_cons_of_pos _ (by simpa using hpa)]
      rw [List.countP_cons, if_pos (by simp [hpa])] at huniq
      have hnotas : (id, d) ∉ as := by
        intro hx
        have : 0 < as.countP (fun p => p.1 = id) :=
          List.countP_pos_iff.mpr ⟨(id, d), hx, by simp⟩
        omega
      rcases List.mem_cons.mp hmem with hx | hx
      · rw [← hx]
      · exact absurd hx hnotas
    · rw [List.find?_cons_of_neg _ (by simpa using hpa)]
      have hmas : (id, d) ∈ as := by
        rcases List.mem_cons.mp hmem with hx | hx
        · exact absurd (congrArg Prod.fst hx).symm hpa
        · exact hx
      refine ih hmas ?_
      rw [List.countP_cons] at huniq
      omega

end FrameStore

/-- **C9**: pending frame requests resolve exactly once.  Over any event
trace from the initial store, each request id is resolved at most once; a
fulfillment for an id that is not pending (unknown, already fulfilled, or
already timed out) is a no-op; a fulfillment of a pending id records
exactly one resolution carrying the delivered frame and removes the id from
the pending map; the timeout firing at a pending id's deadline records
exactly one `null` resolution and removes it (so, granted the runtime fires
every scheduled timeout, no request stays pending forever); and every
request schedules its timeout at exactly `now + 10000` ms. -/
theorem c9_frameLifecycle :
    (∀ (tr : List FrameStore.Event) (id : Nat),
        (FrameStore.init.run tr).resolvedLog.countP (fun p => p.1 = id) ≤ 1) ∧
    (∀ (s : FrameStore) (id : Nat) (f : Option CapturedFrame),
        ¬ (s.pending.any (fun p => p.1 = id) = true) → s.fstep (.fulfill id f) = s) ∧
    (∀ (s : FrameStore) (id : Nat) (f : Option CapturedFrame),
        s.pending.any (fun p => p.1 = id) = true →
          (s.fstep (.fulfill id f)).resolvedLog = s.resolvedLog ++ [(id, f)] ∧
          (s.fstep (.fulfill id f)).pending.countP (fun p => p.1 = id) = 0) ∧
    (∀ (s : FrameStore) (id d : Nat),
        (id, d) ∈ s.pending → s.pending.countP (fun p => p.1 = id) ≤ 1 →
          (s.fstep (.timeoutFire id d)).resolvedLog = s.resolvedLog ++ [(id, none)] ∧
          (s.fstep (.timeoutFire id d)).pending.countP (fun p => p.1 = id) = 0) ∧
    (∀ (s : FrameStore) (now : Nat),
        (s.fstep (.request now)).pending
          = s.pending ++ [(s.frameRequestId + 1, now + 10000)]) := by
  refine ⟨?_, ?_, ?_, ?_, ?_⟩
  · intro tr id
    have hinv := FrameStore.inv_run FrameStore.init tr FrameStore.inv_init
    have := (hinv id).1
    simp only [FrameStore.pcount, FrameStore.rcount] at this
    omega
  · intro s id f h
    simp [FrameStore.fstep, h]
  · intro s id f h
    constructor
    · simp [FrameStore.fstep, h]
    · simp only [FrameStore.fstep, if_pos h]
      exact FrameStore.pcount_filter_self _ _
  · intro s id d hmem huniq
    have hfind := FrameStore.find_unique s.pending id d hmem huniq
    constructor
    · simp only [FrameStore.fstep]
      rw [hfind]
      simp
    · simp only [FrameStore.fstep]
      rw [hfind]
      simp only [if_pos rfl]
      exact FrameStore.pcount_filter_self _ _
  · intro s now
    rfl

/-- **C9** witness: a fulfillment for the unknown id 1 is a no-op on the
fresh store, and the first request schedules its timeout at t=10000. -/
theorem c9_frameLifecycle_witness :
    FrameStore.init.fstep (.fulfill 1 none) = FrameStore.init ∧
    (FrameStore.init.fstep (.request 0)).pending = [(1, 10000)] := by
  refine ⟨c9_frameLifecycle.2.1 _ 1 none (by decide), ?_⟩
  have h5 := c9_frameLifecycle.2.2.2.2 FrameStore.init 0
  simpa [FrameStore.init] using h5

end Bobi
